import Mathlib

/-!
Verification development for the `reflex-clerk-api` repository
(`src/custom_components/reflex_clerk_api/clerk_provider.py`).

The embedding translates the backend coordination logic of
`clerk_provider.py` into Lean:

* `SessionState` embeds the two per-session flags of `ClerkState`
  (`is_logged_in`, `auth_checked`).
* `Action` embeds the user-visible values returned by the event handlers
  (`rx.toast.success`, `rx.toast.info`, `rx.toast.error`) together with
  opaque user-supplied on-load events (`Action.custom`).
* The class-level registry `ClerkState._on_load_events`
  (a Python `dict[uuid.UUID, EventType]`) is embedded as an association
  list with Python-dict semantics (`dictGet`, `dictInsert`); UUIDs are
  embedded as natural numbers.
* `wait_for_auth_check` is a polling loop over wall-clock time; time is
  embedded as rationals, with the idealisation that the k-th poll of the
  flag happens at elapsed time `k * 0.05` seconds (each
  `asyncio.sleep(0.05)` takes exactly 0.05 s and the checks themselves
  take no time).  The value of `self.auth_checked` observed at the k-th
  poll is supplied by an oracle `authAt : Nat -> Bool`, since the flag is
  flipped concurrently by the frontend-triggered events.  The loop is
  written with explicit fuel; the top-level wrapper supplies enough fuel
  for every iteration the Python `while` loop can perform.
* The embedded JavaScript of `ClerkSessionSynchronizer.add_custom_code`
  is modelled through React `useEffect` semantics: the effect body runs
  on mount and whenever its single dependency `isSignedIn` changes.
-/

namespace ClerkApi

/-- User-visible action values returned by the `ClerkState` event
handlers: the three `rx.toast` constructors used in the source, plus
opaque user-supplied on-load events. -/
inductive Action where
  | toastSuccess (msg : String)
  | toastInfo (msg : String)
  | toastError (msg : String)
  | custom (n : Nat)
deriving DecidableEq, Repr

/-- The per-session flags of `ClerkState`:
`is_logged_in : bool = False` and `auth_checked : bool = False`. -/
structure SessionState where
  is_logged_in : Bool
  auth_checked : Bool
deriving DecidableEq, Repr

/-- The initial `ClerkState`: both flags default to `False`. -/
def SessionState.initial : SessionState :=
  { is_logged_in := false, auth_checked := false }

/-- Embedding of `ClerkState.set_clerk_session`: sets `is_logged_in = True`,
`auth_checked = True` and returns `rx.toast.success("Logged in!")`.
The token argument is received but not stored. -/
def set_clerk_session (_s : SessionState) (_token : String) :
    SessionState × Action :=
  ({ is_logged_in := true, auth_checked := true },
   Action.toastSuccess "Logged in!")

/-- Embedding of `ClerkState.clear_clerk_session`: sets `is_logged_in = False`,
`auth_checked = True` and returns `rx.toast.success("Logged out!")`. -/
def clear_clerk_session (_s : SessionState) : SessionState × Action :=
  ({ is_logged_in := false, auth_checked := true },
   Action.toastSuccess "Logged out!")

/-- Embedding of `ClerkState.dev_reset`: sets `is_logged_in = False`,
`auth_checked = False` and returns `rx.toast.success("Dev reset!")`. -/
def dev_reset (_s : SessionState) : SessionState × Action :=
  ({ is_logged_in := false, auth_checked := false },
   Action.toastSuccess "Dev reset!")

/-- A login/logout event dispatched by the frontend synchronizer to the
`ClerkState` event handlers. -/
inductive SessionEvent where
  | login (token : String)
  | logout
deriving DecidableEq, Repr

/-- Dispatch one event to its `ClerkState` handler. -/
def applyEvent (s : SessionState) : SessionEvent → SessionState × Action
  | SessionEvent.login tok => set_clerk_session s tok
  | SessionEvent.logout => clear_clerk_session s

/-- Run a sequence of login/logout events, collecting the returned
actions in order. -/
def runEvents (s : SessionState) : List SessionEvent → SessionState × List Action
  | [] => (s, [])
  | e :: rest =>
      let p := applyEvent s e
      let q := runEvents p.1 rest
      (q.1, p.2 :: q.2)

/-- Whether a session event is a login. -/
def SessionEvent.isLogin : SessionEvent → Bool
  | SessionEvent.login _ => true
  | SessionEvent.logout => false

/-- Python truthiness of a `str | None` value, as tested by
`if not secret_key:` in `ClerkState.set_secret_key`: `None` and the
empty string are falsy, every other string is truthy. -/
def truthyStr : Option String → Bool
  | none => false
  | some s => decide (s ≠ "")

/-- Embedding of `ClerkState.set_secret_key`: raises
`ValueError("secret_key must be set (and not empty)")` when the supplied
key is falsy (`None` or empty), otherwise stores it in the class-level
`_secret_key`.  The stored value (`_cur`) is simply replaced. -/
def set_secret_key (_cur : Option String) (key : Option String) :
    Except String (Option String) :=
  if truthyStr key then Except.ok key
  else Except.error "secret_key must be set (and not empty)"

/-- Embedding of `clerk_provider`'s handling of its `secret_key` argument: the very
first thing it does is call `ClerkState.set_secret_key(secret_key)`;
the component composition that follows does not touch the key. -/
def clerk_provider_set_key (cur : Option String) (key : Option String) :
    Except String (Option String) :=
  set_secret_key cur key

/-- The class-level registry `ClerkState._on_load_events`, a Python
`dict` from UUIDs (embedded as `Nat`) to lists of on-load actions. -/
abbrev Registry := List (Nat × List Action)

/-- Python `dict` lookup `d.get(uid)` on the registry. -/
def dictGet : Registry → Nat → Option (List Action)
  | [], _ => none
  | (k, v) :: rest, uid => if k = uid then some v else dictGet rest uid

/-- Python `dict` assignment `d[uid] = v`: replace the existing binding
if present, otherwise append a new one. -/
def dictInsert : Registry → Nat → List Action → Registry
  | [], uid, v => [(uid, v)]
  | (k, w) :: rest, uid, v =>
      if k = uid then (uid, v) :: rest
      else (k, w) :: dictInsert rest uid v

/-- Embedding of `ClerkState.set_on_load_events`: registers
`cls._on_load_events[uid] = on_load_events`. -/
def set_on_load_events (reg : Registry) (uid : Nat) (evs : List Action) :
    Registry :=
  dictInsert reg uid evs

/-- The on-load events passed to `on_load`: either a single event or a
list of events (`EventType[()]` in the source). -/
inductive EventSpec where
  | single (a : Action)
  | multiple (as_ : List Action)
deriving DecidableEq, Repr

/-- The normalisation done by `on_load`:
`on_load_events if isinstance(on_load_events, list) else [on_load_events]`. -/
def toEventList : EventSpec → List Action
  | EventSpec.single a => [a]
  | EventSpec.multiple as_ => as_

/-- Embedding of `on_load`: for `None` it returns `None` and leaves the registry
alone; otherwise it normalises the events to a list and registers them
under a fresh UUID (the caller supplies the fresh `uid` here since
`uuid.uuid4()` is nondeterministic).  Returns the updated registry. -/
def on_load (reg : Registry) (uid : Nat) :
    Option EventSpec → Registry
  | none => reg
  | some ev => set_on_load_events reg uid (toEventList ev)

/-- The poll interval of `wait_for_auth_check`:
`await asyncio.sleep(0.05)`, i.e. 1/20 of a second. -/
def pollInterval : ℚ := 1 / 20

/-- Result of `wait_for_auth_check`.  The success branch returns a list
of events (`self._on_load_events.get(uid, [rx.toast.info(...)])`); the
timeout branch returns the single action `rx.toast.error(...)`. -/
inductive WaitResult where
  | events (es : List Action)
  | timeoutErr (a : Action)
deriving DecidableEq, Repr

/-- The body of the `while` loop of `ClerkState.wait_for_auth_check`,
with explicit fuel.  `k` counts completed sleeps, so the elapsed time
`time.time() - start_time` at the k-th test of the loop guard is
`k * pollInterval`.  `authAt k` is the value of `self.auth_checked`
observed at the k-th iteration.  The registry is threaded through and
returned, mirroring the state-passing of the Python method (which only
reads it, via `.get`). -/
def waitLoop (authAt : ℕ → Bool) (timeout : ℚ) (reg : Registry)
    (uid : Nat) : ℕ → ℕ → WaitResult × Registry
  | 0, _ => (WaitResult.timeoutErr (Action.toastError "Auth check timed out!"), reg)
  | fuel + 1, k =>
      if (k : ℚ) * pollInterval < timeout then
        if authAt k then
          ((WaitResult.events ((dictGet reg uid).getD
              [Action.toastInfo "Auth check complete (no on_loads)!"])), reg)
        else
          waitLoop authAt timeout reg uid fuel (k + 1)
      else
        (WaitResult.timeoutErr (Action.toastError "Auth check timed out!"), reg)

/-- Fuel sufficient for every iteration the Python loop can perform:
the guard `k * pollInterval < timeout` forces `k < 20 * timeout`, so
`⌈20 * timeout⌉ + 1` iterations always reach the guard failure. -/
def waitFuel (timeout : ℚ) : ℕ :=
  (⌈20 * timeout⌉).toNat + 1

/-- Embedding of `ClerkState.wait_for_auth_check(uid)`: poll `auth_checked` every
0.05 s until the configured timeout elapses; on success return the
registered on-load events for `uid` (with the informational default if
none are registered); on timeout return the error toast. -/
def wait_for_auth_check (authAt : ℕ → Bool) (timeout : ℚ)
    (reg : Registry) (uid : Nat) : WaitResult × Registry :=
  waitLoop authAt timeout reg uid (waitFuel timeout) 0

/-- One render-time snapshot of the values read by the
`ClerkSessionSynchronizer` JavaScript function:
`const { getToken, isLoaded, isSignedIn } = useAuth()` and
`const [ addEvents, connectErrors ] = useContext(EventLoopContext)`.
`isSignedIn` is `undefined` (`none`) until the SDK has loaded;
`addEvents` records whether `!!addEvents` is truthy; `token` is the
value `getToken()` resolves to. -/
structure AuthSnapshot where
  isLoaded : Bool
  isSignedIn : Option Bool
  addEvents : Bool
  token : String

/-- A backend event dispatched by the synchronizer through
`addEvents([Event(...)])`. -/
inductive DispatchedEvent where
  | setSession (token : String)
  | clearSession
deriving DecidableEq, Repr

/-- One run of the `useEffect` body:
`if (isLoaded && !!addEvents) { if (isSignedIn) {... set_clerk_session
with token ...} else {... clear_clerk_session ...} }`.  JavaScript
truthiness of `isSignedIn` makes `undefined` take the else branch. -/
def effectRun (s : AuthSnapshot) : List DispatchedEvent :=
  if s.isLoaded && s.addEvents then
    if s.isSignedIn = some true then [DispatchedEvent.setSession s.token]
    else [DispatchedEvent.clearSession]
  else []

/-- React `useEffect` dependency check for the dependency array
`[isSignedIn]`: the effect runs on mount (`prev = none`) and whenever
`isSignedIn` differs from its value at the previous render. -/
def depChanged : Option AuthSnapshot → AuthSnapshot → Bool
  | none, _ => true
  | some p, c => decide (p.isSignedIn ≠ c.isSignedIn)

/-- The events the synchronizer dispatches at a render, given the
previous render's snapshot (`none` on mount). -/
def dispatchesAt (prev : Option AuthSnapshot) (cur : AuthSnapshot) :
    List DispatchedEvent :=
  if depChanged prev cur then effectRun cur else []

/-! ## Helper lemmas -/

lemma dictGet_dictInsert_self (reg : Registry) (uid : Nat) (v : List Action) :
    dictGet (dictInsert reg uid v) uid = some v := by
  induction reg with
  | nil => simp [dictGet, dictInsert]
  | cons p rest ih =>
      obtain ⟨k, w⟩ := p
      by_cases hk : k = uid
      · simp [dictGet, dictInsert, hk]
      · simp [dictGet, dictInsert, hk, ih]

lemma waitLoop_snd (authAt : ℕ → Bool) (t : ℚ) (reg : Registry) (uid : Nat) :
    ∀ fuel k, (waitLoop authAt t reg uid fuel k).2 = reg := by
  intro fuel
  induction fuel with
  | zero => intro k; rfl
  | succ n ih =>
      intro k
      rw [waitLoop]
      by_cases hk : (k : ℚ) * pollInterval < t
      · rw [if_pos hk]
        cases hak : authAt k with
        | true => simp [hak]
        | false => simp [hak, ih (k + 1)]
      · rw [if_neg hk]

lemma waitLoop_never (authAt : ℕ → Bool) (t : ℚ) (reg : Registry) (uid : Nat)
    (h : ∀ k : ℕ, (k : ℚ) * pollInterval < t → authAt k = false) :
    ∀ fuel k, waitLoop authAt t reg uid fuel k =
      (WaitResult.timeoutErr (Action.toastError "Auth check timed out!"), reg) := by
  intro fuel
  induction fuel with
  | zero => intro k; rfl
  | succ n ih =>
      intro k
      rw [waitLoop]
      by_cases hk : (k : ℚ) * pollInterval < t
      · rw [if_pos hk, h k hk]
        simpa using ih (k + 1)
      · rw [if_neg hk]

lemma waitLoop_events_of_auth (authAt : ℕ → Bool) (t : ℚ) (reg : Registry) (uid : Nat) :
    ∀ (fuel k : ℕ), (∃ j : ℕ, k ≤ j ∧ (j : ℚ) * pollInterval < t ∧ authAt j = true) →
      (∀ j : ℕ, k ≤ j → (j : ℚ) * pollInterval < t → j < k + fuel) →
      waitLoop authAt t reg uid fuel k =
        (WaitResult.events ((dictGet reg uid).getD
          [Action.toastInfo "Auth check complete (no on_loads)!"]), reg) := by
  intro fuel
  induction fuel with
  | zero =>
      rintro k ⟨j, hkj, hjt, _⟩ hbound
      exact absurd (hbound j hkj hjt) (by omega)
  | succ n ih =>
      rintro k ⟨j, hkj, hjt, hja⟩ hbound
      have hkt : (k : ℚ) * pollInterval < t := by
        have hle : (k : ℚ) * pollInterval ≤ (j : ℚ) * pollInterval := by
          have : (k : ℚ) ≤ (j : ℚ) := by exact_mod_cast hkj
          have hp : (0 : ℚ) ≤ pollInterval := by norm_num [pollInterval]
          exact mul_le_mul_of_nonneg_right this hp
        exact lt_of_le_of_lt hle hjt
      rw [waitLoop, if_pos hkt]
      cases hak : authAt k with
      | true => simp
      | false =>
          have hkj2 : k + 1 ≤ j := by
            rcases Nat.lt_or_ge k j with hlt | hge
            · omega
            · have hkeq : k = j := by omega
              rw [hkeq, hja] at hak
              exact absurd hak (by simp)
          simp only [Bool.false_eq_true, if_false]
          exact ih (k + 1) ⟨j, hkj2, hjt, hja⟩
            (fun j2 hj2 hjt2 => by
              have := hbound j2 (by omega) hjt2; omega)

lemma wait_events_of_auth (authAt : ℕ → Bool) (t : ℚ) (reg : Registry) (uid : Nat)
    (hex : ∃ j : ℕ, (j : ℚ) * pollInterval < t ∧ authAt j = true) :
    wait_for_auth_check authAt t reg uid =
      (WaitResult.events ((dictGet reg uid).getD
        [Action.toastInfo "Auth check complete (no on_loads)!"]), reg) := by
  obtain ⟨j, hjt, hja⟩ := hex
  apply waitLoop_events_of_auth
  · exact ⟨j, Nat.zero_le j, hjt, hja⟩
  · intro j2 _ hjt2
    have h1 : (j2 : ℚ) < 20 * t := by
      rw [pollInterval] at hjt2
      linarith
    have h3 : (j2 : ℤ) < ⌈20 * t⌉ := by
      exact_mod_cast lt_of_lt_of_le h1 (Int.le_ceil _)
    have h4 : (j2 : ℤ) < ((⌈20 * t⌉).toNat : ℤ) :=
      lt_of_lt_of_le h3 (Int.self_le_toNat _)
    have h5 : j2 < (⌈20 * t⌉).toNat := by exact_mod_cast h4
    simp only [waitFuel]
    omega

/-! ## Claim theorems -/

/-- C1: for every request id registered via `on_load` with a list of
deferred actions, if `wait_for_auth_check` is invoked with that id and
`auth_checked` is observed true at some poll before the timeout elapses,
the waiter returns exactly the list of deferred actions registered for
that id. -/
theorem wait_returns_registered_actions (reg : Registry) (uid : Nat)
    (L : List Action) (t : ℚ) (authAt : ℕ → Bool)
    (hauth : ∃ j : ℕ, (j : ℚ) * pollInterval < t ∧ authAt j = true) :
    (wait_for_auth_check authAt t
        (on_load reg uid (some (EventSpec.multiple L))) uid).1 =
      WaitResult.events L := by
  rw [wait_events_of_auth _ _ _ _ hauth]
  simp [on_load, set_on_load_events, toEventList, dictGet_dictInsert_self]

/-- Witness for C1: with the registry holding `[custom 7]` for id 0 and
`auth_checked` observed true at the first poll of a 1-second wait, the
waiter returns `[custom 7]`. -/
theorem wait_returns_registered_actions_witness :
    (wait_for_auth_check (fun _ => true) 1
        (on_load [] 0 (some (EventSpec.multiple [Action.custom 7]))) 0).1 =
      WaitResult.events [Action.custom 7] :=
  wait_returns_registered_actions [] 0 [Action.custom 7] 1 (fun _ => true)
    ⟨0, by norm_num [pollInterval], rfl⟩

/-- C2 counterexample: entries are NOT read-once.  With the registry
mapping id 0 to `[custom 5]` and a successful wait, the claim says id 0
is no longer mapped afterwards; in fact `wait_for_auth_check` reads the
registry with `dict.get` and never deletes, so id 0 is still mapped. -/
theorem registry_entry_not_consumed :
    dictGet (wait_for_auth_check (fun _ => true) 1
        [(0, [Action.custom 5])] 0).2 0 ≠ none := by
  rw [wait_for_auth_check,
    waitLoop_snd (fun _ => true) 1 [(0, [Action.custom 5])] 0 (waitFuel 1) 0]
  simp [dictGet]

/-- C2 amended: the registry is never mutated by the waiter — after a
wait returns (successfully or not), every id, including the one queried,
is mapped exactly as before. -/
theorem registry_unchanged_by_wait (authAt : ℕ → Bool) (t : ℚ)
    (reg : Registry) (uid : Nat) :
    (wait_for_auth_check authAt t reg uid).2 = reg ∧
      ∀ u, dictGet (wait_for_auth_check authAt t reg uid).2 u = dictGet reg u := by
  have h := waitLoop_snd authAt t reg uid (waitFuel t) 0
  exact ⟨h, fun u => by rw [wait_for_auth_check, h]⟩

/-- C3: if `auth_checked` is never observed true at a poll inside the
timeout window, `wait_for_auth_check` returns the single timeout error
toast — in particular not the deferred actions registered for the id. -/
theorem wait_timeout_error (authAt : ℕ → Bool) (t : ℚ) (reg : Registry)
    (uid : Nat)
    (h : ∀ k : ℕ, (k : ℚ) * pollInterval < t → authAt k = false) :
    (wait_for_auth_check authAt t reg uid).1 =
      WaitResult.timeoutErr (Action.toastError "Auth check timed out!") := by
  rw [wait_for_auth_check, waitLoop_never authAt t reg uid h]

/-- Witness for C3: a 1-second wait during which `auth_checked` is never
observed true returns the timeout error toast. -/
theorem wait_timeout_error_witness :
    (wait_for_auth_check (fun _ => false) 1 [(0, [Action.custom 9])] 0).1 =
      WaitResult.timeoutErr (Action.toastError "Auth check timed out!") :=
  wait_timeout_error (fun _ => false) 1 [(0, [Action.custom 9])] 0
    (fun _ _ => rfl)

lemma runEvents_length (s : SessionState) (evs : List SessionEvent) :
    (runEvents s evs).2.length = evs.length := by
  induction evs generalizing s with
  | nil => rfl
  | cons e rest ih => simpa [runEvents] using ih (applyEvent s e).1

lemma runEvents_actions_success (s : SessionState) (evs : List SessionEvent) :
    ∀ a ∈ (runEvents s evs).2, ∃ m, a = Action.toastSuccess m := by
  induction evs generalizing s with
  | nil => intro a ha; simp [runEvents] at ha
  | cons e rest ih =>
      intro a ha
      have hcons : (runEvents s (e :: rest)).2 =
          (applyEvent s e).2 :: (runEvents (applyEvent s e).1 rest).2 := rfl
      rw [hcons, List.mem_cons] at ha
      rcases ha with hhd | htl
      · cases e with
        | login tok => exact ⟨"Logged in!", hhd⟩
        | logout => exact ⟨"Logged out!", hhd⟩
      · exact ih (applyEvent s e).1 a htl

lemma runEvents_flags (s : SessionState) (evs : List SessionEvent)
    (h : evs ≠ []) :
    (runEvents s evs).1.auth_checked = true ∧
      (runEvents s evs).1.is_logged_in = (evs.getLast h).isLogin := by
  induction evs generalizing s with
  | nil => exact absurd rfl h
  | cons e rest ih =>
      cases rest with
      | nil =>
          cases e <;>
            simp [runEvents, applyEvent, set_clerk_session,
              clear_clerk_session, SessionEvent.isLogin, List.getLast]
      | cons e2 rest2 =>
          have h2 : e2 :: rest2 ≠ [] := by simp
          obtain ⟨ha, hb⟩ := ih (applyEvent s e).1 h2
          have hstate : (runEvents s (e :: e2 :: rest2)).1 =
              (runEvents (applyEvent s e).1 (e2 :: rest2)).1 := rfl
          have hlast : (e :: e2 :: rest2).getLast h =
              (e2 :: rest2).getLast h2 := List.getLast_cons h2
          rw [hstate, hlast]
          exact ⟨ha, hb⟩

/-- C4: after any nonempty sequence of login/logout events from any
prior state, `auth_checked` is true, `is_logged_in` holds exactly when
the most recent event was a login (so a trailing login gives both flags
true and a trailing logout gives `is_logged_in = false`,
`auth_checked = true`), and every event returned a success toast. -/
theorem session_reflects_last_event (s : SessionState)
    (evs : List SessionEvent) (h : evs ≠ []) :
    (runEvents s evs).1.auth_checked = true ∧
      (runEvents s evs).1.is_logged_in = (evs.getLast h).isLogin ∧
      (runEvents s evs).2.length = evs.length ∧
      ∀ a ∈ (runEvents s evs).2, ∃ m, a = Action.toastSuccess m := by
  obtain ⟨ha, hb⟩ := runEvents_flags s evs h
  exact ⟨ha, hb, runEvents_length s evs, runEvents_actions_success s evs⟩

/-- Witness for C4: from the initial state, login then logout yields
`is_logged_in = false`, `auth_checked = true` and two success toasts. -/
theorem session_reflects_last_event_witness :
    (runEvents SessionState.initial
        [SessionEvent.login "tok", SessionEvent.logout]).1.auth_checked = true ∧
      (runEvents SessionState.initial
        [SessionEvent.login "tok", SessionEvent.logout]).1.is_logged_in =
        (([SessionEvent.login "tok", SessionEvent.logout].getLast
          (by simp)).isLogin) ∧
      (runEvents SessionState.initial
        [SessionEvent.login "tok", SessionEvent.logout]).2.length = 2 ∧
      ∀ a ∈ (runEvents SessionState.initial
        [SessionEvent.login "tok", SessionEvent.logout]).2,
        ∃ m, a = Action.toastSuccess m :=
  session_reflects_last_event SessionState.initial
    [SessionEvent.login "tok", SessionEvent.logout] (by simp)

/-- C5: for a request id with no entry in the registry, a successful
wait returns exactly the single informational default toast. -/
theorem wait_default_when_unregistered (authAt : ℕ → Bool) (t : ℚ)
    (reg : Registry) (uid : Nat)
    (hnone : dictGet reg uid = none)
    (hauth : ∃ j : ℕ, (j : ℚ) * pollInterval < t ∧ authAt j = true) :
    (wait_for_auth_check authAt t reg uid).1 =
      WaitResult.events [Action.toastInfo "Auth check complete (no on_loads)!"] := by
  rw [wait_events_of_auth _ _ _ _ hauth]
  simp [hnone]

/-- Witness for C5: an empty registry and a successful wait yield the
single informational default toast. -/
theorem wait_default_when_unregistered_witness :
    (wait_for_auth_check (fun _ => true) 1 [] 0).1 =
      WaitResult.events [Action.toastInfo "Auth check complete (no on_loads)!"] :=
  wait_default_when_unregistered (fun _ => true) 1 [] 0 rfl
    ⟨0, by norm_num [pollInterval], rfl⟩

/-- C6: from every prior state, `dev_reset` leaves
`is_logged_in = false` and `auth_checked = false`. -/
theorem dev_reset_clears_flags (s : SessionState) :
    (dev_reset s).1.is_logged_in = false ∧
      (dev_reset s).1.auth_checked = false :=
  ⟨rfl, rfl⟩

/-- C7: `clerk_provider` (via `set_secret_key`) raises a configuration
error exactly when the supplied secret key is missing (`None`) or empty;
a truthy key is accepted and stored for backend use. -/
theorem secret_key_error_iff_missing_or_empty (cur : Option String)
    (key : Option String) :
    ((∃ e, clerk_provider_set_key cur key = Except.error e) ↔
      key = none ∨ key = some "") ∧
      (key ≠ none → key ≠ some "" → clerk_provider_set_key cur key = Except.ok key) := by
  constructor
  · constructor
    · rintro ⟨e, he⟩
      cases key with
      | none => exact Or.inl rfl
      | some s =>
          by_cases hs : s = ""
          · exact Or.inr (by rw [hs])
          · rw [clerk_provider_set_key, set_secret_key] at he
            simp [truthyStr, hs] at he
    · rintro (hk | hk) <;> subst hk <;>
        exact ⟨"secret_key must be set (and not empty)", rfl⟩
  · intro hn he
    cases key with
    | none => exact absurd rfl hn
    | some s =>
        have hs : s ≠ "" := fun hs0 => he (by rw [hs0])
        simp [clerk_provider_set_key, set_secret_key, truthyStr, hs]

/-- Witness for C7: the key `"sk_test_x"` is accepted and stored, and
instantiating the error direction shows the empty key errors. -/
theorem secret_key_error_iff_missing_or_empty_witness :
    clerk_provider_set_key none (some "sk_test_x") =
      Except.ok (some "sk_test_x") ∧
      (∃ e, clerk_provider_set_key none (some "") = Except.error e) :=
  ⟨(secret_key_error_iff_missing_or_empty none (some "sk_test_x")).2
      (by simp) (by simp),
   (secret_key_error_iff_missing_or_empty none (some "")).1.2 (Or.inr rfl)⟩

/-- C8: `set_clerk_session`, `clear_clerk_session` and `dev_reset` are
idempotent on the session flags: applying any of them twice yields the
same state as applying it once (and, being total functions here, none
raises). -/
theorem session_ops_idempotent (s : SessionState) (tok : String) :
    (set_clerk_session (set_clerk_session s tok).1 tok).1 =
        (set_clerk_session s tok).1 ∧
      (clear_clerk_session (clear_clerk_session s).1).1 =
        (clear_clerk_session s).1 ∧
      (dev_reset (dev_reset s).1).1 = (dev_reset s).1 :=
  ⟨rfl, rfl, rfl⟩

/-- C9: at the first render where the SDK's `isLoaded` flag has become
true (so `isSignedIn` has just resolved from `undefined` to a boolean,
re-running the effect whose dependency is `isSignedIn`), the
synchronizer dispatches exactly one backend event — the login event
carrying the fetched token when signed in, otherwise the logout event —
and no effect run ever dispatches more than one event. -/
theorem synchronizer_dispatches_once (prev cur : AuthSnapshot) (b : Bool)
    (hprev : prev.isLoaded = false) (hcur : cur.isLoaded = true)
    (hadd : cur.addEvents = true)
    (hps : prev.isSignedIn = none) (hcs : cur.isSignedIn = some b) :
    dispatchesAt (some prev) cur =
        (if b then [DispatchedEvent.setSession cur.token]
         else [DispatchedEvent.clearSession]) ∧
      ∀ p c, (dispatchesAt p c).length ≤ 1 := by
  constructor
  · rw [dispatchesAt]
    have hdep : depChanged (some prev) cur = true := by
      simp [depChanged, hps, hcs]
    rw [if_pos hdep, effectRun, hcur, hadd, hcs]
    cases b <;> simp
  · intro p c
    rw [dispatchesAt]
    by_cases hd : depChanged p c = true
    · rw [if_pos hd, effectRun]
      by_cases hl : (c.isLoaded && c.addEvents) = true
      · rw [if_pos hl]
        by_cases hs : c.isSignedIn = some true
        · rw [if_pos hs]; simp
        · rw [if_neg hs]; simp
      · rw [if_neg hl]; simp
    · rw [if_neg hd]; simp

/-- Witness for C9: a mount at `isLoaded = false` followed by a render
with `isLoaded = true`, signed in, dispatches exactly the login event
with the fetched token. -/
theorem synchronizer_dispatches_once_witness :
    dispatchesAt
        (some { isLoaded := false, isSignedIn := none,
                addEvents := true, token := "" })
        { isLoaded := true, isSignedIn := some true,
          addEvents := true, token := "tok" } =
      [DispatchedEvent.setSession "tok"] :=
  (synchronizer_dispatches_once
    { isLoaded := false, isSignedIn := none, addEvents := true, token := "" }
    { isLoaded := true, isSignedIn := some true, addEvents := true,
      token := "tok" }
    true rfl rfl rfl rfl rfl).1

/-- C10: with a zero or negative configured timeout, the deadline test
at the top of the loop fails immediately, so `wait_for_auth_check`
returns the timeout error toast without ever inspecting `auth_checked` —
for every oracle, including one where the flag is already true. -/
theorem nonpositive_timeout_always_errs (t : ℚ) (ht : t ≤ 0)
    (authAt : ℕ → Bool) (reg : Registry) (uid : Nat) :
    (wait_for_auth_check authAt t reg uid).1 =
      WaitResult.timeoutErr (Action.toastError "Auth check timed out!") := by
  rw [wait_for_auth_check, waitFuel, waitLoop]
  rw [if_neg]
  intro hlt
  rw [Nat.cast_zero, zero_mul] at hlt
  exact absurd (lt_of_lt_of_le hlt ht) (lt_irrefl 0)

/-- Witness for C10: timeout 0 with `auth_checked` observed true from
the start and a registered entry still yields the timeout error. -/
theorem nonpositive_timeout_always_errs_witness :
    (wait_for_auth_check (fun _ => true) 0 [(0, [Action.custom 1])] 0).1 =
      WaitResult.timeoutErr (Action.toastError "Auth check timed out!") :=
  nonpositive_timeout_always_errs 0 (le_refl 0) (fun _ => true)
    [(0, [Action.custom 1])] 0

end ClerkApi
